import Mathlib

/-!
Shallow embedding of the `deep-research` pipeline
(`research_manager.py`, `deep_research.py`) and of the
`engineering_team/output/accounts.py` trading-account module,
with theorems checking the specification of the repository against the code.

Conventions of the embedding:
* Remote agent calls (`Runner.run` on the planner / search / writer / email
  agents) are modelled as oracle fields of an `AgentEnv`, returning
  `Except String _` — `.error e` stands for a raised exception whose
  `str(e)` is `e`.
* An async generator is modelled as the pair of (the list of strings it
  yielded, the exception that escaped it, if any).
* `asyncio.as_completed` is modelled by a scheduler function `sched`
  giving the completion order of the dispatched tasks; theorems assume
  `sched` returns a permutation of its input.
* Python `float` amounts are modelled as `ℚ`; the claims checked here are
  structural (comparisons, list lengths, unchanged state) and do not
  depend on floating-point rounding.
* Python `str.strip()` is modelled by `pyStrip` below; a Python `dict`
  by an association list with insertion-order semantics (update in
  place, append new keys at the end), matching CPython dict iteration.
-/

namespace DeepResearch

/-- Whitespace characters stripped by Python `str.strip()` (ASCII subset). -/
def isPySpace (c : Char) : Bool :=
  c = ' ' || c = '\t' || c = '\n' || c = '\r' || c = Char.ofNat 11 || c = Char.ofNat 12

/-- Drop leading whitespace from a character list. -/
def stripL (l : List Char) : List Char := l.dropWhile isPySpace

/-- Drop trailing whitespace from a character list. -/
def stripR (l : List Char) : List Char := (l.reverse.dropWhile isPySpace).reverse

/-- Python `s.strip()`: remove leading and trailing whitespace. -/
def pyStrip (s : String) : String := ⟨stripR (stripL s.data)⟩

/-- Clarifying question produced by the product-manager agent
(`product_manager_agent.py`, class `Question`). -/
structure Question where
  reason : String
  question : String
  deriving DecidableEq

/-- One planned web search (`planner_agent.py`, class `WebSearchItem`). -/
structure WebSearchItem where
  reason : String
  query : String
  deriving DecidableEq

/-- The output of the planner (`planner_agent.py`, class `WebSearchPlan`). -/
structure WebSearchPlan where
  searches : List WebSearchItem
  deriving DecidableEq

/-- Modelled from the spec: `writer_agent.py` is not in the repository
snapshot; the spec describes `ReportData` as "a long-form text report plus
whatever summary/metadata fields the Report Writer attaches".  Only
`markdown_report` is read by the code present (`research_manager.py`). -/
structure ReportData where
  short_summary : String
  markdown_report : String
  follow_up_questions : List String
  deriving DecidableEq

/-- The remote agent runtime, as seen through `Runner.run`.  Each field is
the oracle for one agent; `.error e` models a raised exception.  The writer
oracle receives the query and the collected search texts (the code
serialises them into a single prompt string; that serialisation happens at
this opaque boundary).  `trace_id` models the value of `gen_trace_id()` for
the run. -/
structure AgentEnv where
  trace_id : String
  planner : String → Except String WebSearchPlan
  searcher : String → Except String String
  writer : String → List String → Except String ReportData
  emailer : String → Except String Unit

/-- Prompt built by `ResearchManager._plan_searches`. -/
def plan_input (query questions_and_responses : String) : String :=
  "Query: " ++ query ++ "\nQuestions and Responses:\n" ++ questions_and_responses

/-- Prompt built by `ResearchManager._search`. -/
def search_input (item : WebSearchItem) : String :=
  "Search term: " ++ item.query ++ "\nReason for searching: " ++ item.reason

/-- Model of `ResearchManager._plan_searches`: one planner call. -/
def plan_searches (env : AgentEnv) (query questions_and_responses : String) :
    Except String WebSearchPlan :=
  env.planner (plan_input query questions_and_responses)

/-- Model of `ResearchManager._search`: one search call with the exception caught
locally and converted to `None`. -/
def search (env : AgentEnv) (item : WebSearchItem) : Option String :=
  match env.searcher (search_input item) with
  | .ok r => some r
  | .error _ => none

/-- Model of `ResearchManager._perform_searches`: the tasks are awaited in
completion order (`completed` is that order); `None` results are dropped,
successful results are appended in completion order. -/
def perform_searches (env : AgentEnv) (completed : List WebSearchItem) : List String :=
  completed.filterMap (search env)

/-- Model of `ResearchManager._write_report`: one writer call. -/
def write_report (env : AgentEnv) (query : String) (search_results : List String) :
    Except String ReportData :=
  env.writer query search_results

/-- Model of `ResearchManager._send_email`: one email call on the report markdown;
note the source has no `try`/`except` here, so an error propagates. -/
def send_email (env : AgentEnv) (report : ReportData) : Except String Unit :=
  env.emailer report.markdown_report

/-- Model of `ResearchManager._get_trace_url`. -/
def get_trace_url (trace_id : String) : String :=
  "https://platform.openai.com/traces/trace?trace_id=" ++ trace_id

/-- Model of `ResearchManager._execute_research_pipeline`, as the list of yielded
strings together with the exception (if any) that escaped the generator.
`sched` gives the completion order of the search tasks. -/
def execute_research_pipeline (env : AgentEnv)
    (sched : List WebSearchItem → List WebSearchItem)
    (query questions_and_responses : String) : List String × Option String :=
  match plan_searches env query questions_and_responses with
  | .error e => ([], some e)
  | .ok search_plan =>
    let search_results := perform_searches env (sched search_plan.searches)
    match write_report env query search_results with
    | .error e =>
        (["Searches planned, starting to search...",
          "Searches complete, writing report..."], some e)
    | .ok report =>
      match send_email env report with
      | .error e =>
          (["Searches planned, starting to search...",
            "Searches complete, writing report...",
            "Report written, sending email..."], some e)
      | .ok _ =>
          (["Searches planned, starting to search...",
            "Searches complete, writing report...",
            "Report written, sending email...",
            "Email sent, research complete",
            report.markdown_report], none)

/-- Model of `ResearchManager.run_with_responses`: yields the trace URL, a
start message, then the yields of the pipeline. -/
def run_with_responses (env : AgentEnv)
    (sched : List WebSearchItem → List WebSearchItem)
    (query questions_and_responses : String) : List String × Option String :=
  let rest := execute_research_pipeline env sched query questions_and_responses
  (get_trace_url env.trace_id :: "Starting research with your responses..." :: rest.1,
   rest.2)

/-- The module-level mutable session of `deep_research.py`
(class `ResearchSession`), restricted to the fields read on the
research-execution path. -/
structure Session where
  current_questions : List Question
  current_query : String
  deriving DecidableEq

/-- The filter inside `_validate_responses` / `_format_questions_and_responses`:
keep the responses that are not `None` and whose `str(resp).strip()` is
truthy; the kept response is the original, unstripped string. -/
def valid_responses (responses : List (Option String)) : List String :=
  responses.filterMap (fun r =>
    match r with
    | none => none
    | some s => if pyStrip s = "" then none else some s)

/-- Model of `_validate_responses`: `some msg` is the returned error message,
`none` means validation passed. -/
def validate_responses (sess : Session) (responses : List (Option String)) :
    Option String :=
  let v := valid_responses responses
  if v.length ≠ sess.current_questions.length then
    some ("Please provide answers for all " ++ toString sess.current_questions.length ++
      " questions. You provided " ++ toString v.length ++ " answers.")
  else
    none

/-- The loop body of `_format_questions_and_responses`: numbered
`"i. question - Response: response\n"` lines, the response included as
given. -/
def qa_entries : Nat → List (Question × String) → List String
  | _, [] => []
  | i, (q, r) :: t =>
      (toString i ++ ". " ++ q.question ++ " - Response: " ++ r ++ "\n") ::
        qa_entries (i + 1) t

/-- Model of `_format_questions_and_responses`: zips the questions of the
session with
the valid responses and accumulates the numbered lines. -/
def format_questions_and_responses (sess : Session)
    (responses : List (Option String)) : String :=
  String.join (qa_entries 1 (sess.current_questions.zip (valid_responses responses)))

/-- The answer texts embedded in the transcript by
`_format_questions_and_responses` (the second components of the zip). -/
def ui_included_answers (sess : Session) (responses : List (Option String)) :
    List String :=
  (sess.current_questions.zip (valid_responses responses)).map Prod.snd

/-- The loop body of `ResearchManager._interactive_question_collection`:
each `input()` result is stripped before being embedded. -/
def interactive_entries : Nat → List (Question × String) → List String
  | _, [] => []
  | i, (q, r) :: t =>
      (toString i ++ ". " ++ q.question ++ " - Response: " ++ pyStrip r ++ "\n") ::
        interactive_entries (i + 1) t

/-- Model of `ResearchManager._interactive_question_collection`, with the sequence
of `input()` results supplied as `user_inputs` (one per question). -/
def interactive_question_collection (questions : List Question)
    (user_inputs : List String) : String :=
  String.join (interactive_entries 1 (questions.zip user_inputs))

/-- The answer texts embedded in the transcript by
`_interactive_question_collection`: the stripped `input()` results. -/
def interactive_included_answers (questions : List Question)
    (user_inputs : List String) : List String :=
  (questions.zip user_inputs).map (fun p => pyStrip p.2)

/-- Model of `_execute_research`: accumulates `chunk + "\n\n"` over the generator;
if an exception escapes, the `except` branch returns the
`"Error running research: ..."` string instead (the accumulated chunks are
discarded with the failed coroutine). -/
def execute_research (env : AgentEnv)
    (sched : List WebSearchItem → List WebSearchItem)
    (query questions_and_responses : String) : String :=
  match run_with_responses env sched query questions_and_responses with
  | (chunks, none) => String.join (chunks.map (fun c => c ++ "\n\n"))
  | (_, some e) => "Error running research: " ++ e

/-- Model of `run_research` of `deep_research.py`, with the global session threaded
explicitly: the pair is (returned string, session state after the call).
No statement on this path assigns to the session, so the translation
returns the input session in both branches. -/
def run_research (env : AgentEnv)
    (sched : List WebSearchItem → List WebSearchItem)
    (sess : Session) (responses : List (Option String)) : String × Session :=
  match validate_responses sess responses with
  | some msg => (msg, sess)
  | none =>
      (execute_research env sched sess.current_query
        (format_questions_and_responses sess responses), sess)

end DeepResearch

namespace Accounts

/-- One entry of `Account.transactions` (`accounts.py` appends one dict per
operation). -/
inductive Transaction where
  | deposit (amount : ℚ)
  | withdraw (amount : ℚ)
  | buy (symbol : String) (quantity : Int) (price : ℚ)
  | sell (symbol : String) (quantity : Int) (price : ℚ)
  deriving DecidableEq

/-- Model of `get_share_price` of `accounts.py`: fixed prices, `0.0` for unknown
symbols. -/
def get_share_price (symbol : String) : ℚ :=
  if symbol = "AAPL" then 150
  else if symbol = "TSLA" then 700
  else if symbol = "GOOGL" then 2500
  else 0

/-- Lookup in a Python dict modelled as an association list. -/
def dictGet? (d : List (String × Int)) (k : String) : Option Int :=
  match d with
  | [] => none
  | (k', v) :: t => if k' = k then some v else dictGet? t k

/-- In-place update of an existing key (`d[k] = v` when `k in d`). -/
def dictSet (d : List (String × Int)) (k : String) (v : Int) :
    List (String × Int) :=
  match d with
  | [] => []
  | (k', v') :: t => if k' = k then (k', v) :: t else (k', v') :: dictSet t k v

/-- Deletion (`del d[k]`). -/
def dictDel (d : List (String × Int)) (k : String) : List (String × Int) :=
  match d with
  | [] => []
  | (k', v') :: t => if k' = k then t else (k', v') :: dictDel t k

/-- The `Account` class state of `accounts.py`. -/
structure Account where
  account_id : String
  balance : ℚ
  initial_deposit : ℚ
  holdings : List (String × Int)
  transactions : List Transaction
  deriving DecidableEq

/-- Model of `Account.__init__`: empty holdings, one initial deposit transaction. -/
def Account.init (account_id : String) (initial_deposit : ℚ) : Account :=
  { account_id := account_id
    balance := initial_deposit
    initial_deposit := initial_deposit
    holdings := []
    transactions := [Transaction.deposit initial_deposit] }

/-- Model of `Account.deposit`. -/
def Account.deposit (a : Account) (amount : ℚ) : Account :=
  { a with balance := a.balance + amount
           transactions := a.transactions ++ [Transaction.deposit amount] }

/-- Model of `Account.withdraw`: the `Bool` is the Python return value, paired with
the account state after the call. -/
def Account.withdraw (a : Account) (amount : ℚ) : Bool × Account :=
  if amount > a.balance then (false, a)
  else
    (true,
      { a with balance := a.balance - amount
               transactions := a.transactions ++ [Transaction.withdraw amount] })

/-- Model of `Account.buy_shares`. -/
def Account.buy_shares (a : Account) (symbol : String) (quantity : Int) :
    Bool × Account :=
  let price := get_share_price symbol
  let total_cost := price * (quantity : ℚ)
  if total_cost > a.balance then (false, a)
  else
    let holdings :=
      match dictGet? a.holdings symbol with
      | some q => dictSet a.holdings symbol (q + quantity)
      | none => a.holdings ++ [(symbol, quantity)]
    (true,
      { a with balance := a.balance - total_cost
               holdings := holdings
               transactions :=
                 a.transactions ++ [Transaction.buy symbol quantity price] })

/-- Model of `Account.sell_shares`. -/
def Account.sell_shares (a : Account) (symbol : String) (quantity : Int) :
    Bool × Account :=
  match dictGet? a.holdings symbol with
  | none => (false, a)
  | some q =>
    if q < quantity then (false, a)
    else
      let price := get_share_price symbol
      let h := dictSet a.holdings symbol (q - quantity)
      let h' := if q - quantity = 0 then dictDel h symbol else h
      (true,
        { a with balance := a.balance + price * (quantity : ℚ)
                 holdings := h'
                 transactions :=
                   a.transactions ++ [Transaction.sell symbol quantity price] })

/-- Model of `Account.calculate_portfolio_value`: balance plus quantity × price over
the holdings. -/
def Account.calculate_portfolio_value (a : Account) : ℚ :=
  a.holdings.foldl (fun total p => total + (p.2 : ℚ) * get_share_price p.1) a.balance

end Accounts

open DeepResearch Accounts

/-- Concrete search item used to evaluate the model on closed inputs. -/
def itemA : WebSearchItem := ⟨"reason a", "query a"⟩

/-- Concrete search item whose search call is made to fail in `envW`. -/
def itemB : WebSearchItem := ⟨"reason b", "query b"⟩

/-- Concrete agent environment where every stage succeeds but the search
for `itemB` raises. -/
def envW : AgentEnv :=
  { trace_id := "tid"
    planner := fun _ => .ok ⟨[itemA, itemB]⟩
    searcher := fun s =>
      if s = search_input itemB then .error "search boom" else .ok ("R:" ++ s)
    writer := fun _ _ => .ok ⟨"sum", "REPORT", []⟩
    emailer := fun _ => .ok () }

/-- Concrete agent environment whose email stage raises. -/
def envE : AgentEnv :=
  { trace_id := "tid"
    planner := fun _ => .ok ⟨[]⟩
    searcher := fun s => .ok ("R:" ++ s)
    writer := fun _ _ => .ok ⟨"sum", "REPORT", []⟩
    emailer := fun _ => .error "smtp failure" }

/-- Concrete agent environment whose report-writing stage raises. -/
def envF : AgentEnv :=
  { trace_id := "tid"
    planner := fun _ => .ok ⟨[]⟩
    searcher := fun s => .ok ("R:" ++ s)
    writer := fun _ _ => .error "llm exploded"
    emailer := fun _ => .ok () }

/-- Concrete one-question session used to evaluate the model. -/
def sess0 : Session := ⟨[⟨"r", "Q"⟩], "topic"⟩

/-- Account with a negative balance reached through the public operations
(`deposit` accepts negative amounts unchecked). -/
def negAccount : Account := (Account.init "user123" 1000).deposit (-2000)

/-- Length of a `filterMap` counts the inputs on which the function
succeeds. -/
theorem length_filterMap_eq_countP (f : α → Option β) (l : List α) :
    (l.filterMap f).length = l.countP (fun a => (f a).isSome) := by
  induction l with
  | nil => rfl
  | cons a t ih =>
    rw [List.filterMap_cons, List.countP_cons]
    cases h : f a <;> simp [h, ih]

/-- Lemma: `dropWhile` is idempotent. -/
theorem dropWhile_dropWhile (p : α → Bool) (l : List α) :
    List.dropWhile p (List.dropWhile p l) = List.dropWhile p l := by
  induction l with
  | nil => rfl
  | cons a t ih =>
    by_cases h : p a = true
    · rw [List.dropWhile_cons, if_pos h, ih]
    · rw [List.dropWhile_cons, if_neg h, List.dropWhile_cons, if_neg h]

/-- Right-stripping is idempotent. -/
theorem stripR_stripR (l : List Char) : stripR (stripR l) = stripR l := by
  unfold stripR
  rw [List.reverse_reverse, dropWhile_dropWhile]

/-- The right-stripped list is a prefix of the original. -/
theorem stripR_prefix (l : List Char) : stripR l <+: l := by
  unfold stripR
  conv_rhs => rw [← List.reverse_reverse l]
  exact List.reverse_prefix.mpr (List.dropWhile_suffix _)

/-- Left-stripping after a full strip changes nothing. -/
theorem stripL_stripR_stripL (l : List Char) :
    stripL (stripR (stripL l)) = stripR (stripL l) := by
  have hm : stripL (stripL l) = stripL l := dropWhile_dropWhile _ _
  obtain ⟨u, hu⟩ := stripR_prefix (stripL l)
  cases hp : stripR (stripL l) with
  | nil => rfl
  | cons c t =>
    rw [hp] at hu
    have hcons : stripL l = c :: (t ++ u) := by rw [← hu]; simp
    have hc : ¬ isPySpace c = true := by
      intro hc
      have := hm
      rw [hcons] at this
      unfold stripL at this
      rw [List.dropWhile_cons, if_pos hc] at this
      have hle := (List.dropWhile_suffix (l := t ++ u) isPySpace).length_le
      rw [this] at hle
      simp at hle
    unfold stripL
    rw [List.dropWhile_cons, if_neg hc]

/-- Python `strip()` is idempotent. -/
theorem pyStrip_pyStrip (s : String) : pyStrip (pyStrip s) = pyStrip s := by
  unfold pyStrip
  have : stripR (stripL (stripR (stripL s.data))) = stripR (stripL s.data) := by
    rw [stripL_stripR_stripL, stripR_stripR]
  simpa using congrArg String.mk this

/-- Every response kept by the `_validate_responses` filter is non-empty
after stripping. -/
theorem pyStrip_ne_of_mem_valid_responses {rs : List (Option String)} {a : String}
    (h : a ∈ valid_responses rs) : pyStrip a ≠ "" := by
  unfold valid_responses at h
  rw [List.mem_filterMap] at h
  obtain ⟨r, _, hr⟩ := h
  cases r with
  | none => simp at hr
  | some s =>
    by_cases hs : pyStrip s = ""
    · simp [hs] at hr
    · simp only [if_neg hs, Option.some.injEq] at hr
      subst hr
      exact hs

/-- C1: for every topic and pre-collected transcript, when the planner,
writer and email calls succeed, `run_with_responses` yields exactly the
trace URL, "Starting research with your responses...", the four fixed
stage-progress strings, and finally the markdown text of the report, in this
order and nothing else. -/
theorem C1_run_with_responses_sequence (env : AgentEnv)
    (sched : List WebSearchItem → List WebSearchItem)
    (query qr : String) (plan : WebSearchPlan) (report : ReportData)
    (hplan : plan_searches env query qr = .ok plan)
    (hwrite : write_report env query
        (perform_searches env (sched plan.searches)) = .ok report)
    (hemail : send_email env report = .ok ()) :
    run_with_responses env sched query qr =
      ([get_trace_url env.trace_id,
        "Starting research with your responses...",
        "Searches planned, starting to search...",
        "Searches complete, writing report...",
        "Report written, sending email...",
        "Email sent, research complete",
        report.markdown_report], none) := by
  simp [run_with_responses, execute_research_pipeline, hplan, hwrite, hemail]

/-- Witness for C1 at a concrete environment. -/
theorem C1_witness :
    run_with_responses envW id "best budget laptops 2024" "1. Q - Response: A\n" =
      ([get_trace_url "tid",
        "Starting research with your responses...",
        "Searches planned, starting to search...",
        "Searches complete, writing report...",
        "Report written, sending email...",
        "Email sent, research complete",
        "REPORT"], none) := by
  have h := C1_run_with_responses_sequence envW id "best budget laptops 2024"
    "1. Q - Response: A\n" ⟨[itemA, itemB]⟩ ⟨"sum", "REPORT", []⟩ rfl rfl rfl
  exact h

/-- C4: with `tasks` dispatched and awaited in any completion order
(a permutation of `tasks`), the collected result list has length exactly
the number of succeeding tasks, and never more than the number
dispatched. -/
theorem C4_search_result_count (env : AgentEnv) (tasks completed : List WebSearchItem)
    (hperm : completed.Perm tasks) :
    (perform_searches env completed).length
        = tasks.countP (fun t => (search env t).isSome) ∧
      (perform_searches env completed).length ≤ tasks.length := by
  have h1 : (perform_searches env completed).length
      = completed.countP (fun t => (search env t).isSome) :=
    length_filterMap_eq_countP _ _
  have h2 := hperm.countP_eq (fun t => (search env t).isSome)
  refine ⟨h1.trans h2, ?_⟩
  rw [h1, h2]
  exact List.countP_le_length _

/-- Witness for C4: two tasks, one failing, completed in reversed order. -/
theorem C4_witness :
    (perform_searches envW [itemB, itemA]).length = 1 ∧
      (perform_searches envW [itemB, itemA]).length ≤ 2 := by
  have h := C4_search_result_count envW [itemA, itemB] [itemB, itemA] (by decide)
  refine ⟨h.1.trans (by decide), by simpa using h.2⟩

/-- C5: a search whose remote call raises is converted to `None` inside
`_search`, so it contributes no entry to the collected results and the
contributions of the sibling tasks are exactly those of the run without it. -/
theorem C5_failed_search_isolated (env : AgentEnv) (item : WebSearchItem) (e : String)
    (hfail : env.searcher (search_input item) = .error e) :
    search env item = none ∧
      ∀ pre post : List WebSearchItem,
        perform_searches env (pre ++ item :: post) =
          perform_searches env pre ++ perform_searches env post := by
  have hnone : search env item = none := by unfold search; rw [hfail]
  refine ⟨hnone, fun pre post => ?_⟩
  unfold perform_searches
  rw [List.filterMap_append, List.filterMap_cons, hnone]

/-- Witness for C5 at a concrete failing search. -/
theorem C5_witness :
    search envW itemB = none ∧
      perform_searches envW [itemA, itemB] =
        perform_searches envW [itemA] ++ perform_searches envW [] := by
  have h := C5_failed_search_isolated envW itemB "search boom" rfl
  exact ⟨h.1, h.2 [itemA] []⟩

/-- Counterexample to C2: at this concrete environment the email stage
raises, and the exception is not swallowed — it escapes the generator and
the report markdown `"REPORT"` is never yielded; the terminal UI-wrapper
output is an error string, not the report. -/
theorem C2_counterexample :
    run_with_responses envE id "t" "a" =
      ([get_trace_url "tid",
        "Starting research with your responses...",
        "Searches planned, starting to search...",
        "Searches complete, writing report...",
        "Report written, sending email..."], some "smtp failure") ∧
      "REPORT" ∉ (run_with_responses envE id "t" "a").1 ∧
      execute_research envE id "t" "a" ≠ "REPORT" := by
  refine ⟨rfl, by decide, by decide⟩

/-- C2 (amended): when the stages through report-writing succeed but the
email call raises, the exception propagates out of the pipeline (there is
no `try`/`except` in `_send_email`): the yielded sequence ends at
"Report written, sending email...", the report markdown is never yielded,
and the UI wrapper returns "Error running research: ..." instead of the
report. -/
theorem C2_amended_email_failure_propagates (env : AgentEnv)
    (sched : List WebSearchItem → List WebSearchItem)
    (query qr : String) (plan : WebSearchPlan) (report : ReportData) (e : String)
    (hplan : plan_searches env query qr = .ok plan)
    (hwrite : write_report env query
        (perform_searches env (sched plan.searches)) = .ok report)
    (hemail : send_email env report = .error e) :
    run_with_responses env sched query qr =
      ([get_trace_url env.trace_id,
        "Starting research with your responses...",
        "Searches planned, starting to search...",
        "Searches complete, writing report...",
        "Report written, sending email..."], some e) ∧
      execute_research env sched query qr = "Error running research: " ++ e := by
  have hrun : run_with_responses env sched query qr =
      ([get_trace_url env.trace_id,
        "Starting research with your responses...",
        "Searches planned, starting to search...",
        "Searches complete, writing report...",
        "Report written, sending email..."], some e) := by
    simp [run_with_responses, execute_research_pipeline, hplan, hwrite, hemail]
  refine ⟨hrun, ?_⟩
  unfold execute_research
  rw [hrun]

/-- Witness for the amended C2 at a concrete environment. -/
theorem C2_amended_witness :
    run_with_responses envE id "topic" "1. Q - Response: A\n" =
      ([get_trace_url "tid",
        "Starting research with your responses...",
        "Searches planned, starting to search...",
        "Searches complete, writing report...",
        "Report written, sending email..."], some "smtp failure") ∧
      execute_research envE id "topic" "1. Q - Response: A\n" =
        "Error running research: smtp failure" := by
  have h := C2_amended_email_failure_propagates envE id "topic" "1. Q - Response: A\n"
    ⟨[]⟩ ⟨"sum", "REPORT", []⟩ "smtp failure" rfl rfl rfl
  exact ⟨h.1, h.2.trans (by decide)⟩

/-- C3: whenever the number of non-`None`, non-blank responses differs
from the number of current questions, `run_research` returns the
validation message naming the expected and provided counts, independently
of the agent environment (so the search-planning stage is never invoked),
and leaves the session unchanged. -/
theorem C3_validation_blocks_planning (env : AgentEnv)
    (sched : List WebSearchItem → List WebSearchItem)
    (sess : Session) (responses : List (Option String))
    (h : (valid_responses responses).length ≠ sess.current_questions.length) :
    run_research env sched sess responses =
      ("Please provide answers for all " ++ toString sess.current_questions.length ++
        " questions. You provided " ++ toString (valid_responses responses).length ++
        " answers.", sess) := by
  unfold run_research validate_responses
  simp [h]

/-- Witness for C3: one question, zero answers. -/
theorem C3_witness :
    run_research envW id sess0 [] =
      ("Please provide answers for all 1 questions. You provided 0 answers.",
        sess0) :=
  (C3_validation_blocks_planning envW id sess0 [] (by decide)).trans (by decide)

/-- C6: when the planner succeeds but the report-writing call raises, the
terminal output delivered by the UI wrapper is the single string
"Error running research: ..." — it starts with the literal
"Error running research" and no report text is emitted. -/
theorem C6_write_failure_terminal_error (env : AgentEnv)
    (sched : List WebSearchItem → List WebSearchItem)
    (query qr : String) (plan : WebSearchPlan) (e : String)
    (hplan : plan_searches env query qr = .ok plan)
    (hwrite : write_report env query
        (perform_searches env (sched plan.searches)) = .error e) :
    execute_research env sched query qr = "Error running research: " ++ e ∧
      ∃ t, execute_research env sched query qr = "Error running research" ++ t := by
  have hrun : run_with_responses env sched query qr =
      ([get_trace_url env.trace_id,
        "Starting research with your responses...",
        "Searches planned, starting to search...",
        "Searches complete, writing report..."], some e) := by
    simp [run_with_responses, execute_research_pipeline, hplan, hwrite]
  have hmain : execute_research env sched query qr = "Error running research: " ++ e := by
    unfold execute_research
    rw [hrun]
  refine ⟨hmain, ": " ++ e, ?_⟩
  rw [hmain, ← String.append_assoc]
  rw [show ("Error running research" : String) ++ ": " = "Error running research: " from by decide]

/-- Witness for C6 at a concrete environment whose writer raises. -/
theorem C6_witness :
    execute_research envF id "topic" "1. Q - Response: A\n" =
      "Error running research: llm exploded" := by
  have h := C6_write_failure_terminal_error envF id "topic" "1. Q - Response: A\n"
    ⟨[]⟩ "llm exploded" rfl rfl
  exact h.1.trans (by decide)

/-- Counterexample to C7: through the UI pass-through path, the answer
`" hi "` is embedded in the transcript exactly as given — not trimmed of
surrounding whitespace — so not every included answer is trimmed. -/
theorem C7_counterexample :
    ui_included_answers sess0 [some " hi "] = [" hi "] ∧
      pyStrip " hi " ≠ " hi " ∧
      format_questions_and_responses sess0 [some " hi "] =
        "1. Q - Response:  hi \n" := by
  refine ⟨by decide, by decide, by decide⟩

/-- C7 (amended): the two collection strategies differ. On the UI
pass-through path every included answer is non-empty after stripping (the
filter removes blank answers) but is embedded untrimmed; on the
interactive path every included answer is stripped before embedding, but
an answer that is empty after stripping is still included and collection
does not fail (witnessed by the concrete blank-answer transcript). -/
theorem C7_amended_included_answers (sess : Session)
    (responses : List (Option String))
    (questions : List Question) (user_inputs : List String) :
    (∀ a ∈ ui_included_answers sess responses, pyStrip a ≠ "") ∧
      (∀ a ∈ interactive_included_answers questions user_inputs, pyStrip a = a) ∧
      interactive_question_collection [⟨"r", "Q"⟩] ["   "] =
        "1. Q - Response: \n" := by
  refine ⟨?_, ?_, by decide⟩
  · intro a ha
    unfold ui_included_answers at ha
    rw [List.mem_map] at ha
    obtain ⟨⟨q, r⟩, hmem, rfl⟩ := ha
    exact pyStrip_ne_of_mem_valid_responses (List.of_mem_zip hmem).2
  · intro a ha
    unfold interactive_included_answers at ha
    rw [List.mem_map] at ha
    obtain ⟨⟨q, r⟩, hmem, rfl⟩ := ha
    exact pyStrip_pyStrip r

/-- Witness for the amended C7 on concrete transcripts. -/
theorem C7_amended_witness :
    pyStrip " x " ≠ "" ∧ pyStrip (pyStrip " y ") = pyStrip " y " :=
  ⟨(C7_amended_included_answers sess0 [some " x "] [] []).1 " x " (by decide),
   (C7_amended_included_answers sess0 [] [⟨"r", "Q"⟩] [" y "]).2.1
     (pyStrip " y ") (by decide)⟩

/-- C8: one `run_research` call never writes the session state, so a
second run with the same inputs (and the session the first run left
behind) returns exactly the same output — runs are independent and each
output is a function of its own inputs only. -/
theorem C8_runs_independent (env : AgentEnv)
    (sched : List WebSearchItem → List WebSearchItem)
    (sess : Session) (responses : List (Option String)) :
    (run_research env sched sess responses).2 = sess ∧
      run_research env sched (run_research env sched sess responses).2 responses
        = run_research env sched sess responses := by
  have hsnd : (run_research env sched sess responses).2 = sess := by
    unfold run_research
    split <;> rfl
  exact ⟨hsnd, by rw [hsnd]⟩

/-- C9: `deposit` always appends exactly one transaction; each of
`withdraw`, `buy_shares`, `sell_shares` appends exactly one transaction
when it returns `True`, and leaves the whole account state (balance,
holdings, transactions) unchanged when it returns `False`. -/
theorem C9_transaction_discipline (a : Account) (amount : ℚ)
    (symbol : String) (quantity : Int) :
    (a.deposit amount).transactions
        = a.transactions ++ [Transaction.deposit amount] ∧
      ((a.withdraw amount).1 = true →
        (a.withdraw amount).2.transactions
          = a.transactions ++ [Transaction.withdraw amount]) ∧
      ((a.withdraw amount).1 = false → (a.withdraw amount).2 = a) ∧
      ((a.buy_shares symbol quantity).1 = true →
        (a.buy_shares symbol quantity).2.transactions
          = a.transactions ++ [Transaction.buy symbol quantity (get_share_price symbol)]) ∧
      ((a.buy_shares symbol quantity).1 = false →
        (a.buy_shares symbol quantity).2 = a) ∧
      ((a.sell_shares symbol quantity).1 = true →
        (a.sell_shares symbol quantity).2.transactions
          = a.transactions ++ [Transaction.sell symbol quantity (get_share_price symbol)]) ∧
      ((a.sell_shares symbol quantity).1 = false →
        (a.sell_shares symbol quantity).2 = a) := by
  refine ⟨rfl, ?_, ?_, ?_, ?_, ?_, ?_⟩
  · by_cases h : amount > a.balance <;> simp [Account.withdraw, h]
  · by_cases h : amount > a.balance <;> simp [Account.withdraw, h]
  · by_cases h : get_share_price symbol * (quantity : ℚ) > a.balance <;>
      simp [Account.buy_shares, h]
  · by_cases h : get_share_price symbol * (quantity : ℚ) > a.balance <;>
      simp [Account.buy_shares, h]
  · cases hq : dictGet? a.holdings symbol with
    | none => simp [Account.sell_shares, hq]
    | some q =>
      by_cases hlt : q < quantity <;> simp [Account.sell_shares, hq, hlt]
  · cases hq : dictGet? a.holdings symbol with
    | none => simp [Account.sell_shares, hq]
    | some q =>
      by_cases hlt : q < quantity <;> simp [Account.sell_shares, hq, hlt]

/-- Witness for C9: a successful and a failing withdrawal on a concrete
account. -/
theorem C9_witness :
    ((Account.init "user123" 1000).withdraw 200).1 = true ∧
      ((Account.init "user123" 1000).withdraw 200).2.transactions
        = (Account.init "user123" 1000).transactions ++ [Transaction.withdraw 200] ∧
      ((Account.init "user123" 1000).withdraw 2000).2 = Account.init "user123" 1000 :=
  ⟨by decide,
   (C9_transaction_discipline (Account.init "user123" 1000) 200 "AAPL" 5).2.1
     (by decide),
   (C9_transaction_discipline (Account.init "user123" 1000) 2000 "AAPL" 5).2.2.1
     (by decide)⟩

/-- Updating a present key makes the lookup return the new value. -/
theorem dictGet?_dictSet_self {d : List (String × Int)} {k : String} {q v : Int}
    (h : dictGet? d k = some q) : dictGet? (dictSet d k v) k = some v := by
  induction d with
  | nil => simp [dictGet?] at h
  | cons p t ih =>
    obtain ⟨k', v'⟩ := p
    by_cases hk : k' = k
    · simp [dictGet?, dictSet, hk]
    · simp only [dictGet?, dictSet, if_neg hk] at h ⊢
      exact ih h

/-- Appending a fresh key makes the lookup return its value. -/
theorem dictGet?_append_single {d : List (String × Int)} {k : String} {v : Int}
    (h : dictGet? d k = none) : dictGet? (d ++ [(k, v)]) k = some v := by
  induction d with
  | nil => simp [dictGet?]
  | cons p t ih =>
    obtain ⟨k', v'⟩ := p
    by_cases hk : k' = k
    · simp [dictGet?, hk] at h
    · simp only [List.cons_append, dictGet?, if_neg hk] at h ⊢
      exact ih h

/-- A fold accumulating additions equals the initial value plus the sum of
the mapped list. -/
theorem foldl_add_eq (f : α → ℚ) (l : List α) (init : ℚ) :
    l.foldl (fun t p => t + f p) init = init + (l.map f).sum := by
  induction l generalizing init with
  | nil => simp
  | cons a t ih => simp [ih, add_assoc]

/-- Updating the quantity of a zero-priced symbol does not change the
per-holding value contributions. -/
theorem map_contrib_dictSet {d : List (String × Int)} {k : String} {v : Int}
    (hk : get_share_price k = 0) :
    (dictSet d k v).map (fun p => (p.2 : ℚ) * get_share_price p.1)
      = d.map (fun p => (p.2 : ℚ) * get_share_price p.1) := by
  induction d with
  | nil => rfl
  | cons p t ih =>
    obtain ⟨k', v'⟩ := p
    by_cases h : k' = k
    · simp [dictSet, h, hk]
    · simp [dictSet, h, ih]

/-- Counterexample to C10: `buy_shares` of an unknown (zero-priced) symbol
does depend on the balance — on an account driven negative through the
public API (a negative deposit), the zero total cost still exceeds the
balance and the purchase returns `False`. -/
theorem C10_counterexample :
    ("XYZ" ≠ "AAPL" ∧ "XYZ" ≠ "TSLA" ∧ "XYZ" ≠ "GOOGL") ∧
      negAccount.balance < 0 ∧
      (negAccount.buy_shares "XYZ" 5).1 = false := by
  refine ⟨by decide, ?_, ?_⟩
  · norm_num [negAccount, Account.init, Account.deposit]
  · have hxyz : get_share_price "XYZ" = 0 := by decide
    have hbalneg : negAccount.balance = -1000 := by
      norm_num [negAccount, Account.init, Account.deposit]
    norm_num [Account.buy_shares, hxyz, hbalneg]

/-- C10 (amended): for every symbol outside the three known ones,
`get_share_price` returns `0`, and on any account whose balance is
non-negative, `buy_shares` of such a symbol returns `True`, leaves the
balance unchanged, adds the quantity to the holdings for the symbol, and leaves
the portfolio value unchanged (the acquired shares contribute `0`). -/
theorem C10_amended_zero_price_buy (symbol : String) (a : Account) (quantity : Int)
    (h1 : symbol ≠ "AAPL") (h2 : symbol ≠ "TSLA") (h3 : symbol ≠ "GOOGL")
    (hbal : 0 ≤ a.balance) :
    get_share_price symbol = 0 ∧
      (a.buy_shares symbol quantity).1 = true ∧
      (a.buy_shares symbol quantity).2.balance = a.balance ∧
      dictGet? (a.buy_shares symbol quantity).2.holdings symbol
        = some ((dictGet? a.holdings symbol).getD 0 + quantity) ∧
      (a.buy_shares symbol quantity).2.calculate_portfolio_value
        = a.calculate_portfolio_value := by
  have hp : get_share_price symbol = 0 := by
    simp [get_share_price, h1, h2, h3]
  have hcost : get_share_price symbol * (quantity : ℚ) = 0 := by
    rw [hp, zero_mul]
  have hnot : ¬ get_share_price symbol * (quantity : ℚ) > a.balance := by
    rw [hcost]
    exact not_lt.mpr hbal
  cases hq : dictGet? a.holdings symbol with
  | some q =>
    have hbuy : a.buy_shares symbol quantity =
        (true,
          { a with
              balance := a.balance - get_share_price symbol * (quantity : ℚ)
              holdings := dictSet a.holdings symbol (q + quantity)
              transactions := a.transactions ++
                [Transaction.buy symbol quantity (get_share_price symbol)] }) := by
      simp [Account.buy_shares, hq, hnot]
    refine ⟨hp, by rw [hbuy], ?_, ?_, ?_⟩
    · rw [hbuy]
      simp [hcost]
    · rw [hbuy]
      simp only []
      rw [dictGet?_dictSet_self hq]
      simp
    · rw [hbuy]
      unfold Account.calculate_portfolio_value
      simp only []
      rw [foldl_add_eq, foldl_add_eq, map_contrib_dictSet hp, hcost, sub_zero]
  | none =>
    have hbuy : a.buy_shares symbol quantity =
        (true,
          { a with
              balance := a.balance - get_share_price symbol * (quantity : ℚ)
              holdings := a.holdings ++ [(symbol, quantity)]
              transactions := a.transactions ++
                [Transaction.buy symbol quantity (get_share_price symbol)] }) := by
      simp [Account.buy_shares, hq, hnot]
    refine ⟨hp, by rw [hbuy], ?_, ?_, ?_⟩
    · rw [hbuy]
      simp [hcost]
    · rw [hbuy]
      simp only []
      rw [dictGet?_append_single hq]
      simp
    · rw [hbuy]
      unfold Account.calculate_portfolio_value
      simp only []
      rw [foldl_add_eq, foldl_add_eq, hcost, sub_zero]
      simp [hp]

/-- Witness for the amended C10 on a concrete account and symbol. -/
theorem C10_witness :
    get_share_price "MSFT" = 0 ∧
      ((Account.init "u" 100).buy_shares "MSFT" 3).1 = true ∧
      ((Account.init "u" 100).buy_shares "MSFT" 3).2.balance
        = (Account.init "u" 100).balance := by
  have h := C10_amended_zero_price_buy "MSFT" (Account.init "u" 100) 3
    (by decide) (by decide) (by decide) (by decide)
  exact ⟨h.1, h.2.1, h.2.2.1⟩
